import Mathlib

/-!
Shallow embedding of the momentum-scoring engine of the `detector_hype`
repository (`src/utils.py`, with `src/app.py` holding an identical copy of
the engine functions).

Modelling choices:
* Python floats are modelled as exact rationals (`ℚ`); every numeric literal
  of the source (`14.0`, `60.0`, `2.0`, `100`, `0.30`, …) is an exact rational.
* A pandas `DataFrame` is modelled as a list of rows together with Boolean
  flags recording which optional columns are present, mirroring the
  `'col' in df.columns` tests of the source.  Row filtering
  (`df[df['create_time'] >= start]`) becomes `List.filter`.
* `datetime` instants are rationals (days since an arbitrary epoch; only
  subtraction of day counts and `≥` comparison are used); the calendar dates
  of the Google-Trends frame are integers (whole days), matching
  `.dt.date` truncation.
* A Python function that can raise is embedded in `Except Unit`:
  `.error ()` marks an escaped exception (`KeyError`), `.ok` a normal return.
-/

namespace DetectorHype

/-- One row of the Google-Trends time frame (`df_trends`): a calendar date and
the bounded interest value of that day. -/
structure TrendsRow where
  date : Int
  interest : ℚ
deriving DecidableEq, Repr

/-- The Google-Trends data frame: its rows, and whether the `date` column is
present (`pd.to_datetime(df_trends['date'])` raises a `KeyError` when it is
not). -/
structure TrendsDf where
  hasDateCol : Bool
  rows : List TrendsRow
deriving DecidableEq, Repr

/-- The dictionary returned by `calculate_trends_metrics`. -/
structure TrendsMetrics where
  trends_14d_avg : ℚ
  trends_60d_avg : ℚ
deriving DecidableEq, Repr

/-- `df['interest'].sum()` over a list of rows. -/
def interestSum (rows : List TrendsRow) : ℚ :=
  (rows.map (fun r => r.interest)).sum

/-- The pandas per-observation mean `df['interest'].mean()` guarded by the
source's `if not df.empty else 0`: sum of the interest values divided by the
number of rows, and `0` for an empty frame. -/
def interestMean (rows : List TrendsRow) : ℚ :=
  if rows.isEmpty then 0 else interestSum rows / rows.length

/-- `calculate_trends_metrics` (`src/utils.py:165-192`): given the
Google-Trends frame (or `None`) and today's date, return `None` when the frame
is `None` or empty; otherwise filter the rows to the last 14 and last 60 days
and return the per-observation mean of `interest` over each filtered set
(`0` when a filtered set is empty).  Accessing the `date` column of a
non-empty frame that lacks it raises (`.error ()`). -/
def calculate_trends_metrics (df_trends : Option TrendsDf) (today : Int) :
    Except Unit (Option TrendsMetrics) :=
  match df_trends with
  | none => .ok none
  | some df =>
    if df.rows.isEmpty then .ok none
    else if !df.hasDateCol then .error ()
    else
      let start_14d := today - 14
      let start_60d := today - 60
      let df_14d := df.rows.filter (fun r => decide (start_14d ≤ r.date))
      let df_60d := df.rows.filter (fun r => decide (start_60d ≤ r.date))
      let trends_14d_avg := if df_14d.isEmpty then 0 else interestSum df_14d / df_14d.length
      let trends_60d_avg := if df_60d.isEmpty then 0 else interestSum df_60d / df_60d.length
      .ok (some { trends_14d_avg := trends_14d_avg, trends_60d_avg := trends_60d_avg })

/-- One row of the TikTok video frame: creation instant and the four
engagement counters (modelled as rationals; the source sums and divides them
without any integer-only operation). -/
structure VideoRow where
  create_time : ℚ
  play_count : ℚ
  digg_count : ℚ
  comment_count : ℚ
  share_count : ℚ
deriving DecidableEq, Repr

/-- The TikTok data frame: its rows and which columns are present, mirroring
the `'col' in df.columns` membership tests of the source. -/
structure TikTokDf where
  hasCreateTime : Bool
  hasPlayCount : Bool
  hasDiggCount : Bool
  hasCommentCount : Bool
  hasShareCount : Bool
  rows : List VideoRow
deriving DecidableEq, Repr

/-- The dictionary returned by `calculate_growth_metrics`. -/
structure GrowthMetrics where
  views_14d_avg : ℚ
  views_60d_avg : ℚ
  likes_14d_avg : ℚ
  likes_60d_avg : ℚ
  comments_14d_avg : ℚ
  comments_60d_avg : ℚ
  shares_14d_avg : ℚ
  shares_60d_avg : ℚ
deriving DecidableEq, Repr

/-- `df['play_count'].sum()` over a list of rows. -/
def playSum (rows : List VideoRow) : ℚ := (rows.map (fun r => r.play_count)).sum

/-- `df['digg_count'].sum()` over a list of rows. -/
def diggSum (rows : List VideoRow) : ℚ := (rows.map (fun r => r.digg_count)).sum

/-- `df['comment_count'].sum()` over a list of rows. -/
def commentSum (rows : List VideoRow) : ℚ := (rows.map (fun r => r.comment_count)).sum

/-- `df['share_count'].sum()` over a list of rows. -/
def shareSum (rows : List VideoRow) : ℚ := (rows.map (fun r => r.share_count)).sum

/-- `calculate_growth_metrics` (`src/utils.py:124-162`): return `None` when the
frame is empty or lacks the `create_time` or `play_count` column; otherwise
filter the rows to `create_time >= today - 14` and `create_time >= today - 60`
days, sum each counter over each filtered set (`0` for a counter whose column
is absent), and divide the 14-day sums by the fixed `14.0` and the 60-day sums
by the fixed `60.0`. -/
def calculate_growth_metrics (df : TikTokDf) (today : ℚ) : Option GrowthMetrics :=
  if df.rows.isEmpty || !df.hasCreateTime || !df.hasPlayCount then none
  else
    let start_14d := today - 14
    let start_60d := today - 60
    let df_14d := df.rows.filter (fun r => decide (start_14d ≤ r.create_time))
    let df_60d := df.rows.filter (fun r => decide (start_60d ≤ r.create_time))
    let views_sum_14d := playSum df_14d
    let views_sum_60d := playSum df_60d
    let likes_sum_14d := if df.hasDiggCount then diggSum df_14d else 0
    let likes_sum_60d := if df.hasDiggCount then diggSum df_60d else 0
    let comments_sum_14d := if df.hasCommentCount then commentSum df_14d else 0
    let comments_sum_60d := if df.hasCommentCount then commentSum df_60d else 0
    let shares_sum_14d := if df.hasShareCount then shareSum df_14d else 0
    let shares_sum_60d := if df.hasShareCount then shareSum df_60d else 0
    some {
      views_14d_avg := views_sum_14d / 14.0
      views_60d_avg := views_sum_60d / 60.0
      likes_14d_avg := likes_sum_14d / 14.0
      likes_60d_avg := likes_sum_60d / 60.0
      comments_14d_avg := comments_sum_14d / 14.0
      comments_60d_avg := comments_sum_60d / 60.0
      shares_14d_avg := shares_sum_14d / 14.0
      shares_60d_avg := shares_sum_60d / 60.0
    }

/-- `get_momentum_score` (`src/utils.py:194-210`): the momentum transform.
When the historical average is `0`, return `200.0` for positive recent
activity and `0.0` otherwise; else cap the ratio `recent / historical` at
`2.0` and scale by `100`. -/
def get_momentum_score (recent_avg historical_avg : ℚ) : ℚ :=
  if historical_avg = 0 then
    if recent_avg > 0 then 200.0 else 0.0
  else
    let ratio := recent_avg / historical_avg
    let capped_ratio := min ratio 2.0
    let score := capped_ratio * 100
    score

/-- The dictionary returned by `calculate_ihp`. -/
structure IhpResult where
  ihp_total_score : ℚ
  trends_momentum : ℚ
  views_momentum : ℚ
  likes_momentum : ℚ
  comments_momentum : ℚ
  shares_momentum : ℚ
deriving DecidableEq, Repr

/-- `calculate_ihp` (`src/utils.py:213-261`): the composite scorer.  A `None`
input dictionary is replaced by the empty dictionary (`tiktok_metrics or {}`),
whose `.get(key, 0)` lookups all yield `0`; the five momentum scores are then
computed and combined with the fixed weights 0.30 / 0.25 / 0.20 / 0.15 / 0.10. -/
def calculate_ihp (tiktok_metrics : Option GrowthMetrics)
    (trends_metrics : Option TrendsMetrics) : IhpResult :=
  let views_14d_avg := (tiktok_metrics.map (fun m => m.views_14d_avg)).getD 0
  let views_60d_avg := (tiktok_metrics.map (fun m => m.views_60d_avg)).getD 0
  let likes_14d_avg := (tiktok_metrics.map (fun m => m.likes_14d_avg)).getD 0
  let likes_60d_avg := (tiktok_metrics.map (fun m => m.likes_60d_avg)).getD 0
  let comments_14d_avg := (tiktok_metrics.map (fun m => m.comments_14d_avg)).getD 0
  let comments_60d_avg := (tiktok_metrics.map (fun m => m.comments_60d_avg)).getD 0
  let shares_14d_avg := (tiktok_metrics.map (fun m => m.shares_14d_avg)).getD 0
  let shares_60d_avg := (tiktok_metrics.map (fun m => m.shares_60d_avg)).getD 0
  let trends_14d_avg := (trends_metrics.map (fun m => m.trends_14d_avg)).getD 0
  let trends_60d_avg := (trends_metrics.map (fun m => m.trends_60d_avg)).getD 0
  let T_m := get_momentum_score trends_14d_avg trends_60d_avg
  let V_m := get_momentum_score views_14d_avg views_60d_avg
  let L_m := get_momentum_score likes_14d_avg likes_60d_avg
  let C_m := get_momentum_score comments_14d_avg comments_60d_avg
  let S_m := get_momentum_score shares_14d_avg shares_60d_avg
  let ihp_total_score :=
    (T_m * 0.30) +
    (V_m * 0.25) +
    (L_m * 0.20) +
    (C_m * 0.15) +
    (S_m * 0.10)
  { ihp_total_score := ihp_total_score
    trends_momentum := T_m
    views_momentum := V_m
    likes_momentum := L_m
    comments_momentum := C_m
    shares_momentum := S_m }

/-- `get_ihp_recommendation` (`src/utils.py:264-278`): map the composite score
to its qualitative band, testing the inclusive lower bounds top-down. -/
def get_ihp_recommendation (ihp_total_score : ℚ) : String :=
  if ihp_total_score ≥ 150 then "Viral — tendência explosiva"
  else if ihp_total_score ≥ 100 then "Em alta — hype crescendo"
  else if ihp_total_score ≥ 60 then "Estável — atenção sustentada"
  else "Interesse em queda — produto esfriando"

/-- The momentum transform as the specification words it: on a zero historical
baseline, `200.0` for positive recent activity and `0.0` otherwise; else
`min(recent / historical, 2.0) * 100`. -/
def momentum_spec (recent historical : ℚ) : ℚ :=
  if historical = 0 then (if recent > 0 then 200.0 else 0.0)
  else min (recent / historical) 2.0 * 100

/-- C2: the momentum function equals the reference definition for all
non-negative inputs; in particular `recent == historical > 0` yields exactly
`100.0` and `recent >= 2 * historical > 0` yields exactly `200.0`. -/
theorem momentum_matches_reference (recent historical : ℚ)
    (hr : 0 ≤ recent) (hh : 0 ≤ historical) :
    get_momentum_score recent historical = momentum_spec recent historical ∧
    (historical = 0 → 0 < recent → get_momentum_score recent historical = 200) ∧
    (historical = 0 → recent = 0 → get_momentum_score recent historical = 0) ∧
    (recent = historical → 0 < historical → get_momentum_score recent historical = 100) ∧
    (0 < historical → 2 * historical ≤ recent → get_momentum_score recent historical = 200) := by
  refine ⟨rfl, ?_, ?_, ?_, ?_⟩
  · intro h0 hpos
    norm_num [get_momentum_score, h0, hpos]
  · intro h0 hr0
    norm_num [get_momentum_score, h0, hr0]
  · intro heq hpos
    have hne : historical ≠ 0 := ne_of_gt hpos
    simp only [get_momentum_score, if_neg hne]
    rw [heq, div_self hne]
    norm_num
  · intro hpos hle
    have hne : historical ≠ 0 := ne_of_gt hpos
    simp only [get_momentum_score, if_neg hne]
    have h2 : (2.0 : ℚ) ≤ recent / historical := by
      rw [show (2.0 : ℚ) = 2 by norm_num, le_div_iff₀ hpos]
      linarith
    rw [min_eq_right h2]
    norm_num

/-- Witness for C2 at `recent = 200`, `historical = 100`. -/
theorem momentum_matches_reference_witness :
    get_momentum_score 200 100 = momentum_spec 200 100 ∧
    ((100 : ℚ) = 0 → 0 < (200 : ℚ) → get_momentum_score 200 100 = 200) ∧
    ((100 : ℚ) = 0 → (200 : ℚ) = 0 → get_momentum_score 200 100 = 0) ∧
    ((200 : ℚ) = 100 → 0 < (100 : ℚ) → get_momentum_score 200 100 = 100) ∧
    (0 < (100 : ℚ) → 2 * 100 ≤ (200 : ℚ) → get_momentum_score 200 100 = 200) :=
  momentum_matches_reference 200 100 (by norm_num) (by norm_num)

/-- C6: the momentum function is total on non-negative inputs and its value
always lies in `[0, 200]`; the `historical == 0` branch avoids the division. -/
theorem momentum_total_bounded (recent historical : ℚ)
    (hr : 0 ≤ recent) (hh : 0 ≤ historical) :
    0 ≤ get_momentum_score recent historical ∧
    get_momentum_score recent historical ≤ 200 := by
  unfold get_momentum_score
  by_cases h0 : historical = 0
  · simp only [if_pos h0]
    by_cases hrp : recent > 0 <;> simp [hrp] <;> norm_num
  · have hpos : 0 < historical := lt_of_le_of_ne hh (Ne.symm h0)
    simp only [if_neg h0]
    constructor
    · have : (0 : ℚ) ≤ min (recent / historical) 2.0 :=
        le_min (div_nonneg hr hh) (by norm_num)
      positivity
    · have hm : min (recent / historical) 2.0 ≤ 2.0 := min_le_right _ _
      nlinarith

/-- Witness for C6 at `recent = 7`, `historical = 3`. -/
theorem momentum_total_bounded_witness :
    0 ≤ get_momentum_score 7 3 ∧ get_momentum_score 7 3 ≤ 200 :=
  momentum_total_bounded 7 3 (by norm_num) (by norm_num)

/-- C7: for fixed `historical > 0` the momentum function is monotonically
non-decreasing in `recent`. -/
theorem momentum_monotone_in_recent (historical recent1 recent2 : ℚ)
    (hh : 0 < historical) (h1 : 0 ≤ recent1) (h12 : recent1 ≤ recent2) :
    get_momentum_score recent1 historical ≤ get_momentum_score recent2 historical := by
  have hne : historical ≠ 0 := ne_of_gt hh
  simp only [get_momentum_score, if_neg hne]
  have hdiv : recent1 / historical ≤ recent2 / historical := by gcongr
  exact mul_le_mul_of_nonneg_right (min_le_min hdiv le_rfl) (by norm_num)

/-- Witness for C7 at `historical = 10`, `recent1 = 5`, `recent2 = 25`. -/
theorem momentum_monotone_in_recent_witness :
    get_momentum_score 5 10 ≤ get_momentum_score 25 10 :=
  momentum_monotone_in_recent 10 5 25 (by norm_num) (by norm_num) (by norm_num)

/-- C3: the composite index is exactly the weighted sum of the five momentum
scores with the fixed weights 0.30 / 0.25 / 0.20 / 0.15 / 0.10, and for every
combination of five momentum scores each in `[0, 200]` that weighted sum lies
in `[0, 200]`. -/
theorem ihp_weighted_and_bounded :
    (∀ (tm : Option GrowthMetrics) (trm : Option TrendsMetrics),
      (calculate_ihp tm trm).ihp_total_score =
        (calculate_ihp tm trm).trends_momentum * 0.30 +
        (calculate_ihp tm trm).views_momentum * 0.25 +
        (calculate_ihp tm trm).likes_momentum * 0.20 +
        (calculate_ihp tm trm).comments_momentum * 0.15 +
        (calculate_ihp tm trm).shares_momentum * 0.10) ∧
    (∀ t v l c s : ℚ,
      0 ≤ t → t ≤ 200 → 0 ≤ v → v ≤ 200 → 0 ≤ l → l ≤ 200 →
      0 ≤ c → c ≤ 200 → 0 ≤ s → s ≤ 200 →
      0 ≤ t * 0.30 + v * 0.25 + l * 0.20 + c * 0.15 + s * 0.10 ∧
      t * 0.30 + v * 0.25 + l * 0.20 + c * 0.15 + s * 0.10 ≤ 200) := by
  constructor
  · intro tm trm
    rfl
  · intro t v l c s ht0 ht2 hv0 hv2 hl0 hl2 hc0 hc2 hs0 hs2
    constructor <;> nlinarith

/-- Witness for C3: the decomposition at both inputs `None`, and the bounds at
all five scores equal to `100`. -/
theorem ihp_weighted_and_bounded_witness :
    ((calculate_ihp none none).ihp_total_score =
      (calculate_ihp none none).trends_momentum * 0.30 +
      (calculate_ihp none none).views_momentum * 0.25 +
      (calculate_ihp none none).likes_momentum * 0.20 +
      (calculate_ihp none none).comments_momentum * 0.15 +
      (calculate_ihp none none).shares_momentum * 0.10) ∧
    (0 ≤ (100 : ℚ) * 0.30 + 100 * 0.25 + 100 * 0.20 + 100 * 0.15 + 100 * 0.10 ∧
      (100 : ℚ) * 0.30 + 100 * 0.25 + 100 * 0.20 + 100 * 0.15 + 100 * 0.10 ≤ 200) :=
  ⟨ihp_weighted_and_bounded.1 none none,
    ihp_weighted_and_bounded.2 100 100 100 100 100
      (by norm_num) (by norm_num) (by norm_num) (by norm_num) (by norm_num)
      (by norm_num) (by norm_num) (by norm_num) (by norm_num) (by norm_num)⟩

/-- C4: a `None` data source contributes `0.0` for every momentum score it
would have produced; the composite keeps all five weighted terms; with both
sources `None` the composite index is exactly `0.0`. -/
theorem ihp_missing_source_zero :
    (∀ trm : Option TrendsMetrics,
      (calculate_ihp none trm).views_momentum = 0 ∧
      (calculate_ihp none trm).likes_momentum = 0 ∧
      (calculate_ihp none trm).comments_momentum = 0 ∧
      (calculate_ihp none trm).shares_momentum = 0 ∧
      (calculate_ihp none trm).ihp_total_score =
        (calculate_ihp none trm).trends_momentum * 0.30 +
        0 * 0.25 + 0 * 0.20 + 0 * 0.15 + 0 * 0.10) ∧
    (∀ tm : Option GrowthMetrics,
      (calculate_ihp tm none).trends_momentum = 0 ∧
      (calculate_ihp tm none).ihp_total_score =
        0 * 0.30 +
        (calculate_ihp tm none).views_momentum * 0.25 +
        (calculate_ihp tm none).likes_momentum * 0.20 +
        (calculate_ihp tm none).comments_momentum * 0.15 +
        (calculate_ihp tm none).shares_momentum * 0.10) ∧
    (calculate_ihp none none).ihp_total_score = 0 := by
  have hzero : get_momentum_score 0 0 = 0 := by
    norm_num [get_momentum_score]
  refine ⟨fun trm => ?_, fun tm => ?_, ?_⟩
  · simp [calculate_ihp, hzero]
  · simp [calculate_ihp, hzero]
  · simp [calculate_ihp, hzero]

/-- C5: the recommendation thresholds are inclusive lower bounds evaluated
top-down with first match winning, and the boundary scores `150`, `100`, `60`
and `59.999` fall in the stated bands. -/
theorem recommendation_bands (s : ℚ) :
    (150 ≤ s → get_ihp_recommendation s = "Viral — tendência explosiva") ∧
    (100 ≤ s → s < 150 → get_ihp_recommendation s = "Em alta — hype crescendo") ∧
    (60 ≤ s → s < 100 → get_ihp_recommendation s = "Estável — atenção sustentada") ∧
    (s < 60 → get_ihp_recommendation s = "Interesse em queda — produto esfriando") ∧
    get_ihp_recommendation 150 = "Viral — tendência explosiva" ∧
    get_ihp_recommendation 100 = "Em alta — hype crescendo" ∧
    get_ihp_recommendation 60 = "Estável — atenção sustentada" ∧
    get_ihp_recommendation 59.999 = "Interesse em queda — produto esfriando" := by
  refine ⟨?_, ?_, ?_, ?_, ?_, ?_, ?_, ?_⟩
  · intro h
    simp [get_ihp_recommendation, h]
  · intro h1 h2
    rw [get_ihp_recommendation, if_neg (by exact not_le.mpr h2), if_pos h1]
  · intro h1 h2
    rw [get_ihp_recommendation, if_neg (by push_neg; linarith),
      if_neg (by exact not_le.mpr h2), if_pos h1]
  · intro h
    rw [get_ihp_recommendation, if_neg (by push_neg; linarith),
      if_neg (by push_neg; linarith), if_neg (by exact not_le.mpr h)]
  · norm_num [get_ihp_recommendation]
  · norm_num [get_ihp_recommendation]
  · norm_num [get_ihp_recommendation]
  · norm_num [get_ihp_recommendation]

/-- Witness for C5 at the concrete score `155`. -/
theorem recommendation_bands_witness :
    get_ihp_recommendation 155 = "Viral — tendência explosiva" :=
  (recommendation_bands 155).1 (by norm_num)

/-- C9: on a well-formed social-engagement frame the aggregator selects the
14-day rows (a subset of the 60-day rows) and returns each channel's window
sum divided by the fixed constants `14.0` and `60.0`. -/
theorem growth_metrics_fixed_divisors (df : TikTokDf) (today : ℚ)
    (hne : df.rows.isEmpty = false) (hct : df.hasCreateTime = true)
    (hpc : df.hasPlayCount = true) (hdg : df.hasDiggCount = true)
    (hcm : df.hasCommentCount = true) (hsh : df.hasShareCount = true) :
    df.rows.filter (fun r => decide (today - 14 ≤ r.create_time)) ⊆
      df.rows.filter (fun r => decide (today - 60 ≤ r.create_time)) ∧
    calculate_growth_metrics df today = some {
      views_14d_avg :=
        playSum (df.rows.filter (fun r => decide (today - 14 ≤ r.create_time))) / 14.0
      views_60d_avg :=
        playSum (df.rows.filter (fun r => decide (today - 60 ≤ r.create_time))) / 60.0
      likes_14d_avg :=
        diggSum (df.rows.filter (fun r => decide (today - 14 ≤ r.create_time))) / 14.0
      likes_60d_avg :=
        diggSum (df.rows.filter (fun r => decide (today - 60 ≤ r.create_time))) / 60.0
      comments_14d_avg :=
        commentSum (df.rows.filter (fun r => decide (today - 14 ≤ r.create_time))) / 14.0
      comments_60d_avg :=
        commentSum (df.rows.filter (fun r => decide (today - 60 ≤ r.create_time))) / 60.0
      shares_14d_avg :=
        shareSum (df.rows.filter (fun r => decide (today - 14 ≤ r.create_time))) / 14.0
      shares_60d_avg :=
        shareSum (df.rows.filter (fun r => decide (today - 60 ≤ r.create_time))) / 60.0
    } := by
  constructor
  · intro r hr
    rw [List.mem_filter] at hr ⊢
    refine ⟨hr.1, ?_⟩
    have h14 : today - 14 ≤ r.create_time := of_decide_eq_true hr.2
    exact decide_eq_true (by linarith)
  · simp [calculate_growth_metrics, hne, hct, hpc, hdg, hcm, hsh]

/-- Witness for C9: one video with 10 views, 5 likes, 2 comments and 1 share
created at instant `0`, evaluated with `today = 0`. -/
theorem growth_metrics_fixed_divisors_witness :
    ([⟨0, 10, 5, 2, 1⟩] : List VideoRow).filter
        (fun r => decide ((0 : ℚ) - 14 ≤ r.create_time)) ⊆
      ([⟨0, 10, 5, 2, 1⟩] : List VideoRow).filter
        (fun r => decide ((0 : ℚ) - 60 ≤ r.create_time)) ∧
    calculate_growth_metrics ⟨true, true, true, true, true, [⟨0, 10, 5, 2, 1⟩]⟩ 0 = some {
      views_14d_avg := playSum (([⟨0, 10, 5, 2, 1⟩] : List VideoRow).filter
        (fun r => decide ((0 : ℚ) - 14 ≤ r.create_time))) / 14.0
      views_60d_avg := playSum (([⟨0, 10, 5, 2, 1⟩] : List VideoRow).filter
        (fun r => decide ((0 : ℚ) - 60 ≤ r.create_time))) / 60.0
      likes_14d_avg := diggSum (([⟨0, 10, 5, 2, 1⟩] : List VideoRow).filter
        (fun r => decide ((0 : ℚ) - 14 ≤ r.create_time))) / 14.0
      likes_60d_avg := diggSum (([⟨0, 10, 5, 2, 1⟩] : List VideoRow).filter
        (fun r => decide ((0 : ℚ) - 60 ≤ r.create_time))) / 60.0
      comments_14d_avg := commentSum (([⟨0, 10, 5, 2, 1⟩] : List VideoRow).filter
        (fun r => decide ((0 : ℚ) - 14 ≤ r.create_time))) / 14.0
      comments_60d_avg := commentSum (([⟨0, 10, 5, 2, 1⟩] : List VideoRow).filter
        (fun r => decide ((0 : ℚ) - 60 ≤ r.create_time))) / 60.0
      shares_14d_avg := shareSum (([⟨0, 10, 5, 2, 1⟩] : List VideoRow).filter
        (fun r => decide ((0 : ℚ) - 14 ≤ r.create_time))) / 14.0
      shares_60d_avg := shareSum (([⟨0, 10, 5, 2, 1⟩] : List VideoRow).filter
        (fun r => decide ((0 : ℚ) - 60 ≤ r.create_time))) / 60.0
    } :=
  growth_metrics_fixed_divisors ⟨true, true, true, true, true, [⟨0, 10, 5, 2, 1⟩]⟩ 0
    rfl rfl rfl rfl rfl rfl

/-- C10: the social aggregator returns `None` exactly when the frame is empty
or lacks the `create_time` or `play_count` column; a frame missing only the
likes, comments or shares column still yields a populated result whose missing
channel's window averages are `0.0`. -/
theorem growth_metrics_missing_channel (df : TikTokDf) (today : ℚ) :
    (calculate_growth_metrics df today = none ↔
      (df.rows.isEmpty = true ∨ df.hasCreateTime = false ∨ df.hasPlayCount = false)) ∧
    (df.rows.isEmpty = false → df.hasCreateTime = true → df.hasPlayCount = true →
      df.hasDiggCount = false →
      (calculate_growth_metrics df today).map (fun m => m.likes_14d_avg) = some 0 ∧
      (calculate_growth_metrics df today).map (fun m => m.likes_60d_avg) = some 0) ∧
    (df.rows.isEmpty = false → df.hasCreateTime = true → df.hasPlayCount = true →
      df.hasCommentCount = false →
      (calculate_growth_metrics df today).map (fun m => m.comments_14d_avg) = some 0 ∧
      (calculate_growth_metrics df today).map (fun m => m.comments_60d_avg) = some 0) ∧
    (df.rows.isEmpty = false → df.hasCreateTime = true → df.hasPlayCount = true →
      df.hasShareCount = false →
      (calculate_growth_metrics df today).map (fun m => m.shares_14d_avg) = some 0 ∧
      (calculate_growth_metrics df today).map (fun m => m.shares_60d_avg) = some 0) := by
  refine ⟨?_, ?_, ?_, ?_⟩
  · obtain ⟨ct, pc, dg, cm, sh, rows⟩ := df
    cases ct <;> cases pc <;> cases rows <;>
      simp [calculate_growth_metrics]
  · intro hne hct hpc hdg
    simp [calculate_growth_metrics, hne, hct, hpc, hdg]
  · intro hne hct hpc hcm
    simp [calculate_growth_metrics, hne, hct, hpc, hcm]
  · intro hne hct hpc hsh
    simp [calculate_growth_metrics, hne, hct, hpc, hsh]

/-- Witness for C10: a one-video frame that has `create_time` and `play_count`
but none of the likes, comments and shares columns. -/
theorem growth_metrics_missing_channel_witness :
    (calculate_growth_metrics ⟨true, true, false, false, false, [⟨0, 10, 5, 2, 1⟩]⟩ 0
        = none ↔
      (([⟨0, 10, 5, 2, 1⟩] : List VideoRow).isEmpty = true ∨
        (true : Bool) = false ∨ (true : Bool) = false)) ∧
    ((calculate_growth_metrics ⟨true, true, false, false, false, [⟨0, 10, 5, 2, 1⟩]⟩ 0).map
        (fun m => m.likes_14d_avg) = some 0 ∧
      (calculate_growth_metrics ⟨true, true, false, false, false, [⟨0, 10, 5, 2, 1⟩]⟩ 0).map
        (fun m => m.likes_60d_avg) = some 0) ∧
    ((calculate_growth_metrics ⟨true, true, false, false, false, [⟨0, 10, 5, 2, 1⟩]⟩ 0).map
        (fun m => m.comments_14d_avg) = some 0 ∧
      (calculate_growth_metrics ⟨true, true, false, false, false, [⟨0, 10, 5, 2, 1⟩]⟩ 0).map
        (fun m => m.comments_60d_avg) = some 0) ∧
    ((calculate_growth_metrics ⟨true, true, false, false, false, [⟨0, 10, 5, 2, 1⟩]⟩ 0).map
        (fun m => m.shares_14d_avg) = some 0 ∧
      (calculate_growth_metrics ⟨true, true, false, false, false, [⟨0, 10, 5, 2, 1⟩]⟩ 0).map
        (fun m => m.shares_60d_avg) = some 0) :=
  let t := growth_metrics_missing_channel
    ⟨true, true, false, false, false, [⟨0, 10, 5, 2, 1⟩]⟩ 0
  ⟨t.1, t.2.1 rfl rfl rfl rfl, t.2.2.1 rfl rfl rfl rfl, t.2.2.2 rfl rfl rfl rfl⟩

/-- C1 counterexample: a Google-Trends series with a single observation of
interest `70` dated inside the 14-day window.  The aggregator returns the
per-observation mean `70` for both window averages, while the sum-then-divide
rule of the claim would require `70 / 14.0 = 5` and `70 / 60.0`. -/
theorem trends_not_fixed_divisor :
    calculate_trends_metrics (some ⟨true, [⟨100, 70⟩]⟩) 100 =
      .ok (some { trends_14d_avg := 70, trends_60d_avg := 70 }) ∧
    (70 : ℚ) ≠ interestSum [⟨(100 : Int), (70 : ℚ)⟩] / 14.0 ∧
    (70 : ℚ) ≠ interestSum [⟨(100 : Int), (70 : ℚ)⟩] / 60.0 := by
  refine ⟨by norm_num [calculate_trends_metrics, interestSum],
    by norm_num [interestSum], by norm_num [interestSum]⟩

/-- C1 (amended): the search-interest aggregator computes a true
per-observation mean over each window — the window sum divided by the number
of observations in the window, `0` for an empty window — and not the window
sum divided by the fixed constants `14.0` and `60.0`. -/
theorem trends_metrics_per_observation_mean (df : TrendsDf) (today : Int)
    (hd : df.hasDateCol = true) (hne : df.rows.isEmpty = false) :
    calculate_trends_metrics (some df) today =
      .ok (some {
        trends_14d_avg :=
          interestMean (df.rows.filter (fun r => decide (today - 14 ≤ r.date)))
        trends_60d_avg :=
          interestMean (df.rows.filter (fun r => decide (today - 60 ≤ r.date)))
      }) := by
  simp [calculate_trends_metrics, interestMean, hne, hd]

/-- Witness for the amended C1: observations of interest `70` (day 100, inside
the 14-day window) and `10` (day 50, outside the 60-day window), with
`today = 100`. -/
theorem trends_metrics_per_observation_mean_witness :
    calculate_trends_metrics (some ⟨true, [⟨100, 70⟩, ⟨50, 10⟩]⟩) 100 =
      .ok (some {
        trends_14d_avg := interestMean (([⟨100, 70⟩, ⟨50, 10⟩] : List TrendsRow).filter
          (fun r => decide ((100 : Int) - 14 ≤ r.date)))
        trends_60d_avg := interestMean (([⟨100, 70⟩, ⟨50, 10⟩] : List TrendsRow).filter
          (fun r => decide ((100 : Int) - 60 ≤ r.date)))
      }) :=
  trends_metrics_per_observation_mean ⟨true, [⟨100, 70⟩, ⟨50, 10⟩]⟩ 100 rfl rfl

/-- C8 counterexample: a non-empty Google-Trends frame lacking the `date`
column.  The aggregator raises (`.error ()`) instead of returning the `None`
no-data signal required by the claim. -/
theorem trends_missing_date_not_none :
    calculate_trends_metrics (some ⟨false, [⟨0, 0⟩]⟩) 0 = .error () ∧
    calculate_trends_metrics (some ⟨false, [⟨0, 0⟩]⟩) 0 ≠ .ok none := by
  exact ⟨rfl, by simp [calculate_trends_metrics]⟩

/-- C8 (amended): the social aggregator returns `None` on an empty frame and
on a frame lacking the timestamp column, and the search-interest aggregator
returns `None` on a `None` or empty frame, but it raises rather than
returning `None` when a non-empty frame lacks the `date` column. -/
theorem no_data_signal (df_s : TikTokDf) (df_t : TrendsDf) (today : ℚ) (tday : Int) :
    (df_s.rows.isEmpty = true → calculate_growth_metrics df_s today = none) ∧
    (df_s.hasCreateTime = false → calculate_growth_metrics df_s today = none) ∧
    calculate_trends_metrics none tday = .ok none ∧
    (df_t.rows.isEmpty = true → calculate_trends_metrics (some df_t) tday = .ok none) ∧
    (df_t.rows.isEmpty = false → df_t.hasDateCol = false →
      calculate_trends_metrics (some df_t) tday = .error ()) := by
  refine ⟨fun h => ?_, fun h => ?_, rfl, fun h => ?_, fun h1 h2 => ?_⟩
  · simp [calculate_growth_metrics, h]
  · simp [calculate_growth_metrics, h]
  · simp [calculate_trends_metrics, h]
  · simp [calculate_trends_metrics, h1, h2]

/-- Witness for the amended C8: an empty social frame that also lacks the
timestamp column, an empty trends frame, and a non-empty trends frame without
the `date` column. -/
theorem no_data_signal_witness :
    calculate_growth_metrics ⟨false, true, true, true, true, []⟩ 0 = none ∧
    calculate_trends_metrics (some ⟨true, []⟩) 0 = .ok none ∧
    calculate_trends_metrics (some ⟨false, [⟨0, 0⟩]⟩) 0 = .error () :=
  ⟨(no_data_signal ⟨false, true, true, true, true, []⟩ ⟨true, []⟩ 0 0).1 rfl,
   (no_data_signal ⟨false, true, true, true, true, []⟩ ⟨true, []⟩ 0 0).2.2.2.1 rfl,
   (no_data_signal ⟨false, true, true, true, true, []⟩ ⟨false, [⟨0, 0⟩]⟩ 0 0).2.2.2.2 rfl rfl⟩

end DetectorHype
